import Mathlib

/-
Verification of the `PShape` core of p5 (src/p5/core/shape.py) against its
natural-language specification.

The Python class is shallowly embedded as a Lean structure `PShape` together
with one Lean function per Python method/property.  Conventions:

* A Python vertex (tuple/list of numbers) is a `List Int` (`Point`); the
  canonical store `self._vertices` is a `List Point`.  The numpy value
  `np.array([])` produced for an empty vertex list is a 1-D array of shape
  `(0,)`; it is represented by the empty list `[]`, and the places where the
  source performs 2-D-only numpy operations on it (tuple-unpacking its shape,
  `np.hstack` with a `(n, 1)` column) are modelled as the errors those
  operations raise.
* Python `None` cache markers become `Option` values (`none` = stale/absent).
* Raised exceptions become `Except Err` results, or a `PShape × Option Err`
  pair for operations that mutate state before the raising line (so the
  partially-mutated state is preserved, as in Python).
* The external triangulation service (`vispy.geometry.Triangulation`) is a
  parameter of type `Triangulator`; the instrumentation field `triCalls`
  counts its invocations (the spec calls the triangulator "mockable/countable";
  the counter is not part of the Python object's state).
* Color, transform-matrix, visibility and children plumbing of the source is
  omitted: no claim under verification mentions those fields, and they do not
  interact with the vertex/edge/triangulation pipeline.
-/

/-- A raw input point of arbitrary dimension (Python tuple / list / ndarray row). -/
abbrev Point := List Int

/-- An edge: a pair of vertex indices. -/
abbrev Edge := Nat × Nat

/-- A triangulation face: a triple of vertex indices. -/
abbrev Face := Nat × Nat × Nat

/-- The exceptions the modelled code can raise. -/
inductive Err where
  /-- ValueError("unexpected vertex dimension") from `_sanitize_vertex_list`. -/
  | unexpectedVertexDimension
  /-- ValueError("Wrong vertex dimension") from `update_vertex`. -/
  | wrongVertexDimension
  /-- ValueError("Shape is being edited already") from `edit`. -/
  | alreadyInEditMode
  /-- ValueError("... only works in edit mode") from the `_ensure_editable` decorator. -/
  | notInEditMode
  /-- ValueError raised by `n, _ = self._vertices.shape` when `_vertices` is the
      1-D empty array `np.array([])` (its shape `(0,)` cannot unpack to two values). -/
  | shapeUnpack
  /-- ValueError raised by `np.hstack([self._vertices, np.zeros((n, 1))])` when
      `_vertices` is the 1-D empty array (ndim 1 vs ndim 2 mismatch). -/
  | hstackNdim
  /-- IndexError from the numpy indexed assignment `self._vertices[idx] = ...`. -/
  | indexError
  /-- An arbitrary exception raised by a caller-supplied edit-session body. -/
  | generic
  deriving DecidableEq, Repr

/-- Result returned by the external triangulation service for one call.
`edges`/`tris` are `none` when the service yields a non-`ndarray` marker
(the source guards both with `isinstance(..., np.ndarray)`). -/
structure TriResult where
  pts : List Point
  edges : Option (List Edge)
  tris : Option (List Face)
  deriving DecidableEq, Repr

/-- The external triangulation service: from the shape's vertices and
constraint edges to a triangulated vertex/edge/face set. -/
abbrev Triangulator := List Point → List Edge → TriResult

/-- The state of one `PShape` instance (the fields named `_vertices`,
`_edges`, `_outline`, `_outline_vertices`, `attribs`, `_in_edit_mode`,
`_vertex_cache`, `_tri_required`, `_tri_vertices`, `_tri_edges`,
`_tri_faces` in the source), plus the `triCalls` instrumentation counter. -/
structure PShape where
  vertices : List Point
  edges : Option (List Edge)
  outline : Option (List Edge)
  outlineVertices : Option (List Point)
  attribs : List String
  inEditMode : Bool
  vertexCache : Option (List Point)
  triRequired : Bool
  triVertices : Option (List Point)
  triEdges : Option (List Edge)
  triFaces : Option (List Face)
  triCalls : Nat
  deriving DecidableEq, Repr

/-- `PShape._sanitize_vertex_list(vertices, tdim, sdim)`: walks the input in
order; a point longer than `max tdim sdim` or shorter than `min tdim sdim`
raises; otherwise it is zero-padded by `tdim - sdim` entries when
`tdim > sdim`, truncated to its first `tdim` entries when `tdim < sdim`,
and copied when the dimensions agree. -/
def sanitize_vertex_list (vertices : List Point) (tdim sdim : Nat) :
    Except Err (List Point) :=
  match vertices with
  | [] => .ok []
  | v :: rest =>
    if v.length > max tdim sdim || v.length < min tdim sdim then
      .error .unexpectedVertexDimension
    else
      let sv := if tdim > sdim then v ++ List.replicate (tdim - sdim) 0
                else if tdim < sdim then v.take tdim
                else v
      match sanitize_vertex_list rest tdim sdim with
      | .error e => .error e
      | .ok srest => .ok (sv :: srest)

/-- The `vertices` property setter.  Order of effects follows the source:
`_vertices` is assigned the sanitized array first; then
`np.hstack([self._vertices, np.zeros((n, 1))])` builds `_outline_vertices`
(raising on the empty 1-D array, after `_vertices` was already replaced);
finally the three `_tri_*` caches are reset to `None`.  Note that `_edges`
and `_outline` are NOT touched by the setter. -/
def verticesSet (s : PShape) (newVertices : List Point) : PShape × Option Err :=
  match sanitize_vertex_list newVertices 2 3 with
  | .error e => (s, some e)
  | .ok sanitized =>
    match sanitized with
    | [] => ({ s with vertices := [] }, some .hstackNdim)
    | v :: vs =>
      ({ s with vertices := v :: vs,
                outlineVertices := some ((v :: vs).map (fun p => p ++ [0])),
                triVertices := none, triEdges := none, triFaces := none }, none)

/-- `PShape._compute_poly_edges`:
`np.vstack([np.arange(n), (np.arange(n) + 1) % n]).transpose()`. -/
def compute_poly_edges (n : Nat) : List Edge :=
  (List.range n).map (fun i => (i, (i + 1) % n))

/-- `PShape._compute_outline_edges`:
`np.vstack([np.arange(n - 1), (np.arange(n - 1) + 1) % n]).transpose()`. -/
def compute_outline_edges (n : Nat) : List Edge :=
  (List.range (n - 1)).map (fun i => (i, (i + 1) % n))

/-- `PShape.kind`: `'point'` wins over `'path'`, else `'poly'`. -/
def PShape.kind (s : PShape) : String :=
  if s.attribs.contains "point" then "point"
  else if s.attribs.contains "path" then "path"
  else "poly"

/-- The `edges` property getter.  Point shapes return the empty array at once
(without caching).  Otherwise a cached `_edges` is returned as-is; on a miss
the source unpacks `n, _ = self._vertices.shape` — which raises for the 1-D
empty array — computes `_edges` by kind, and fills `_outline` alongside it. -/
def PShape.edgesGet (s : PShape) : Except Err (List Edge × PShape) :=
  if s.attribs.contains "point" then .ok ([], s)
  else
    match s.edges with
    | some e => .ok (e, s)
    | none =>
      match s.vertices with
      | [] => .error .shapeUnpack
      | _ :: _ =>
        let n := s.vertices.length
        let e :=
          if s.attribs.contains "point" then []
          else if s.attribs.contains "path" then compute_outline_edges n
          else compute_poly_edges n
        let o := if s.attribs.contains "open" then compute_outline_edges n else e
        .ok (e, { s with edges := some e, outline := some o })

/-- The value component of an `edges` read. -/
def PShape.edgesVal (s : PShape) : Except Err (List Edge) :=
  (s.edgesGet).map Prod.fst

/-- `PShape._retriangulate`: evaluates `self.vertices` and `self.edges`
(the property — it may fill the edge caches or raise), hands them to the
external service, and stores the service's points, edges and faces; a
non-`ndarray` edge or face result is stored as the empty array.  The net
effect of the source's duplicated assignment block (lines 257–275) is exactly
these three stores.  `triCalls` counts the external call. -/
def retriangulate (tri : Triangulator) (s : PShape) : Except Err PShape :=
  match s.edgesGet with
  | .error e => .error e
  | .ok (e, s1) =>
    let r := tri s1.vertices e
    .ok { s1 with
          triVertices := some r.pts,
          triEdges := some (r.edges.getD []),
          triFaces := some (r.tris.getD []),
          triCalls := s1.triCalls + 1 }

/-- The `_draw_faces` property: for triangulated kinds, retriangulate on a
`None` face cache, then return the cached faces; otherwise the empty array. -/
def drawFaces (tri : Triangulator) (s : PShape) : Except Err (List Face × PShape) :=
  if s.triRequired then
    match s.triFaces with
    | none =>
      match retriangulate tri s with
      | .error e => .error e
      | .ok s2 => .ok (s2.triFaces.getD [], s2)
    | some f => .ok (f, s)
  else .ok ([], s)

/-- The `_draw_outline_edges` property (source lines 283–287): a bare field
read — `self._outline` when `'open'` is set, else `self._edges` — with no
recomputation and no cache fill; its Lean type `PShape → Option (List Edge)`
reflects that it never changes the state. -/
def draw_outline_edges (s : PShape) : Option (List Edge) :=
  if s.attribs.contains "open" then s.outline else s.edges

/-- Outcome of running the body of a `with shape.edit(...)` block: the state
when control returns to the context manager, and whether the body returned
normally or raised. -/
inductive BodyResult where
  | normal (s : PShape)
  | raised (e : Err) (s : PShape)

/-- The state after `edit`'s entry code has run (up to the `yield`): the
edit flag is set, `reset` clears `_vertices` directly (bypassing the setter,
so no caches are invalidated), and the session buffer becomes the empty list. -/
def editEntry (reset : Bool) (s : PShape) : PShape :=
  let s1 := { s with inEditMode := true }
  let s2 := if reset then { s1 with vertices := [] } else s1
  { s2 with vertexCache := some [] }

/-- The `edit` context manager.  A generator-based `contextlib.contextmanager`
whose body is NOT wrapped in try/finally: when the caller's body raises, the
exception is thrown into the generator at the `yield` and propagates, so the
commit (`self.vertices = self._vertex_cache`), the edit-flag reset and the
`_edges` invalidation after the `yield` are all skipped.  On normal
completion the buffer is committed through the vertex setter; if the setter
raises, the later statements are likewise skipped.
`editCommit` is the code after the `yield`: the commit of the session buffer
through the vertex setter (its raise propagating with the partial state and
the edit flag still set), then `_in_edit_mode = False` and `_edges = None`. -/
def editCommit (s4 : PShape) : PShape × Option Err :=
  match verticesSet s4 (s4.vertexCache.getD []) with
  | (s5, some e) => (s5, some e)
  | (s5, none) => ({ s5 with inEditMode := false, edges := none }, none)

/-- The `edit` context manager itself: the entry guard and code, the body,
and — only on the body's normal return — the `editCommit` tail. -/
def edit (reset : Bool) (body : PShape → BodyResult) (s : PShape) :
    PShape × Option Err :=
  if s.inEditMode then (s, some .alreadyInEditMode)
  else
    match body (editEntry reset s) with
    | .raised e s4 => (s4, some e)
    | .normal s4 => editCommit s4

/-- `PShape.add_vertex`, guarded by the `_ensure_editable` decorator:
outside edit mode it raises; inside it appends the raw point to the buffer. -/
def add_vertex (s : PShape) (v : Point) : Except Err PShape :=
  if s.inEditMode then
    .ok { s with vertexCache := some ((s.vertexCache.getD []) ++ [v]) }
  else .error .notInEditMode

/-- `PShape.update_vertex`: rejects any point whose length is not 2, then
assigns `self._vertices[idx] = np.array(vertex)` (an out-of-range index
raises; the empty 1-D store has no valid index) and resets the three
`_tri_*` caches and `_edges` — but not `_outline`.  There is no edit-mode
check anywhere in the method. -/
def update_vertex (s : PShape) (idx : Nat) (vertex : Point) : Except Err PShape :=
  if vertex.length ≠ 2 then .error .wrongVertexDimension
  else if idx < s.vertices.length then
    .ok { s with vertices := s.vertices.set idx vertex,
                 triVertices := none, triEdges := none, triFaces := none,
                 edges := none }
  else .error .indexError

/-- `PShape.__init__` restricted to the fields modelled here: fresh caches,
`attribs` as the split attribute set, `_tri_required` from the attributes,
and — only when the initial vertex list is non-empty — one pass through the
vertex setter. -/
def PShape.make (vertices : List Point) (attribs : List String) :
    PShape × Option Err :=
  let s0 : PShape :=
    { vertices := [], edges := none, outline := none, outlineVertices := none,
      attribs := attribs, inEditMode := false, vertexCache := none,
      triRequired := !(attribs.contains "point") && !(attribs.contains "path"),
      triVertices := none, triEdges := none, triFaces := none, triCalls := 0 }
  if 0 < vertices.length then verticesSet s0 vertices else (s0, none)

/-! ## Helper lemmas -/

/-- Sanitization with the default dimensions is the identity on lists of
exactly-2-dimensional points. -/
theorem sanitize_len2 (V : List Point) (h : ∀ v ∈ V, v.length = 2) :
    sanitize_vertex_list V 2 3 = .ok V := by
  induction V with
  | nil => rfl
  | cons v rest ih =>
    have hv := h v (List.mem_cons_self v rest)
    have htake : v.take 2 = v := by rw [← hv]; exact List.take_length v
    have hrest : ∀ w ∈ rest, w.length = 2 := fun w hw => h w (List.mem_cons_of_mem v hw)
    unfold sanitize_vertex_list
    rw [ih hrest]
    simp [hv, htake]

/-- The vertex setter never touches the `_edges` / `_outline` caches nor the
edit-session or attribute fields, in any of its branches. -/
theorem verticesSet_preserves (s : PShape) (nv : List Point) :
    (verticesSet s nv).1.edges = s.edges
  ∧ (verticesSet s nv).1.outline = s.outline
  ∧ (verticesSet s nv).1.attribs = s.attribs
  ∧ (verticesSet s nv).1.inEditMode = s.inEditMode
  ∧ (verticesSet s nv).1.triRequired = s.triRequired
  ∧ (verticesSet s nv).1.triCalls = s.triCalls := by
  unfold verticesSet
  split
  · exact ⟨rfl, rfl, rfl, rfl, rfl, rfl⟩
  · split
    · exact ⟨rfl, rfl, rfl, rfl, rfl, rfl⟩
    · exact ⟨rfl, rfl, rfl, rfl, rfl, rfl⟩

/-- A vertex-setter run that raises no error resets the three triangulation
caches. -/
theorem verticesSet_ok_invalidates (s : PShape) (nv : List Point)
    (h : (verticesSet s nv).2 = none) :
    (verticesSet s nv).1.triVertices = none
  ∧ (verticesSet s nv).1.triEdges = none
  ∧ (verticesSet s nv).1.triFaces = none := by
  unfold verticesSet at h ⊢
  split at h
  · exact absurd h (by simp)
  · split at h
    · exact absurd h (by simp)
    · exact ⟨rfl, rfl, rfl⟩

/-- A successful `edges` read changes at most the `_edges` / `_outline`
caches: the store, triangulation state and attributes are untouched. -/
theorem edgesGet_ok_preserves (s : PShape) (e : List Edge) (s1 : PShape)
    (h : s.edgesGet = .ok (e, s1)) :
    s1.vertices = s.vertices
  ∧ s1.triRequired = s.triRequired
  ∧ s1.triCalls = s.triCalls
  ∧ s1.triFaces = s.triFaces
  ∧ s1.triVertices = s.triVertices
  ∧ s1.triEdges = s.triEdges
  ∧ s1.attribs = s.attribs := by
  unfold PShape.edgesGet at h
  split at h
  · cases h
    exact ⟨rfl, rfl, rfl, rfl, rfl, rfl, rfl⟩
  · split at h
    · cases h
      exact ⟨rfl, rfl, rfl, rfl, rfl, rfl, rfl⟩
    · split at h
      · cases h
      · cases h
        exact ⟨rfl, rfl, rfl, rfl, rfl, rfl, rfl⟩

/-- `edit` on a shape already in edit mode raises at once. -/
theorem edit_already (reset : Bool) (body : PShape → BodyResult) (s : PShape)
    (hm : s.inEditMode = true) :
    edit reset body s = (s, some .alreadyInEditMode) := by
  unfold edit
  rw [if_pos hm]

/-- When the session body raises, `edit` propagates the error and performs
no cleanup: the result state is exactly the body's final state. -/
theorem edit_raised (reset : Bool) (body : PShape → BodyResult) (s : PShape)
    (e : Err) (s4 : PShape) (hm : s.inEditMode = false)
    (hb : body (editEntry reset s) = .raised e s4) :
    edit reset body s = (s4, some e) := by
  unfold edit
  rw [if_neg (by rw [hm]; exact Bool.false_ne_true), hb]

/-- When the session body completes normally and the commit through the
vertex setter succeeds, `edit` closes the session: the committed state with
the edit flag cleared and `_edges` reset. -/
theorem edit_normal_ok (reset : Bool) (body : PShape → BodyResult) (s : PShape)
    (s4 s5 : PShape) (hm : s.inEditMode = false)
    (hb : body (editEntry reset s) = .normal s4)
    (hv : verticesSet s4 (s4.vertexCache.getD []) = (s5, none)) :
    edit reset body s = ({ s5 with inEditMode := false, edges := none }, none) := by
  unfold edit
  rw [if_neg (by rw [hm]; exact Bool.false_ne_true), hb]
  show editCommit s4 = _
  unfold editCommit
  rw [hv]

/-- When the session body completes normally but the commit raises, `edit`
propagates the error with the setter's partial state and the edit flag
still set. -/
theorem edit_normal_err (reset : Bool) (body : PShape → BodyResult) (s : PShape)
    (s4 s5 : PShape) (e : Err) (hm : s.inEditMode = false)
    (hb : body (editEntry reset s) = .normal s4)
    (hv : verticesSet s4 (s4.vertexCache.getD []) = (s5, some e)) :
    edit reset body s = (s5, some e) := by
  unfold edit
  rw [if_neg (by rw [hm]; exact Bool.false_ne_true), hb]
  show editCommit s4 = _
  unfold editCommit
  rw [hv]

/-! ## Claim C1 -/

def C1_s0 : PShape := (PShape.make [[0,0],[1,0],[1,1]] ["closed"]).1

def C1_s1 : PShape :=
  { C1_s0 with edges := some [(0,1),(1,2),(2,0)], outline := some [(0,1),(1,2),(2,0)] }

def C1_s2 : PShape := (verticesSet C1_s1 [[0,0],[2,0],[2,2],[0,2]]).1

/-- Claim C1 counterexample: on a closed triangle, reading `edges` caches the
3-ring; assigning a 4-vertex store through the vertices setter leaves that
cache in place, and the next `edges` read returns the stale 3-ring derived
from the old vertices instead of recomputing. -/
theorem C1_counterexample :
    C1_s0.edgesGet = .ok ([(0,1),(1,2),(2,0)], C1_s1)
  ∧ C1_s2.vertices = [[0,0],[2,0],[2,2],[0,2]]
  ∧ C1_s2.edges = some [(0,1),(1,2),(2,0)]
  ∧ C1_s2.edgesGet = .ok ([(0,1),(1,2),(2,0)], C1_s2) :=
  ⟨rfl, rfl, rfl, rfl⟩

/-- Claim C1 (amended): a successful vertices-setter run marks only the three
triangulation caches stale and leaves the `edges` and `outline` caches
untouched; a successful `update_vertex` additionally marks `edges` stale but
still leaves `outline` untouched; a successful edit-session commit marks
`edges` and the triangulation caches stale. -/
theorem C1_invalidation (s s' : PShape) (nv : List Point) (idx : Nat) (v : Point)
    (reset : Bool) (body : PShape → BodyResult) :
    ((verticesSet s nv).2 = none →
       (verticesSet s nv).1.triVertices = none ∧ (verticesSet s nv).1.triEdges = none
     ∧ (verticesSet s nv).1.triFaces = none
     ∧ (verticesSet s nv).1.edges = s.edges ∧ (verticesSet s nv).1.outline = s.outline)
  ∧ (update_vertex s idx v = .ok s' →
       s'.edges = none ∧ s'.triVertices = none ∧ s'.triEdges = none ∧ s'.triFaces = none
     ∧ s'.outline = s.outline)
  ∧ ((edit reset body s).2 = none →
       (edit reset body s).1.edges = none ∧ (edit reset body s).1.triVertices = none
     ∧ (edit reset body s).1.triEdges = none ∧ (edit reset body s).1.triFaces = none) := by
  refine ⟨?_, ?_, ?_⟩
  · intro h
    obtain ⟨h1, h2, h3⟩ := verticesSet_ok_invalidates s nv h
    exact ⟨h1, h2, h3, (verticesSet_preserves s nv).1, (verticesSet_preserves s nv).2.1⟩
  · intro h
    unfold update_vertex at h
    split at h
    · cases h
    · split at h
      · cases h
        exact ⟨rfl, rfl, rfl, rfl, rfl⟩
      · cases h
  · intro h
    cases hm : s.inEditMode with
    | true =>
      rw [edit_already reset body s hm] at h
      cases h
    | false =>
      cases hb : body (editEntry reset s) with
      | raised e s4 =>
        rw [edit_raised reset body s e s4 hm hb] at h
        cases h
      | normal s4 =>
        cases hv : verticesSet s4 (s4.vertexCache.getD []) with
        | mk s5 e? =>
          cases e? with
          | some e =>
            rw [edit_normal_err reset body s s4 s5 e hm hb hv] at h
            cases h
          | none =>
            rw [edit_normal_ok reset body s s4 s5 hm hb hv]
            have hsnd : (verticesSet s4 (s4.vertexCache.getD [])).2 = none := by rw [hv]
            have hfst : (verticesSet s4 (s4.vertexCache.getD [])).1 = s5 := by rw [hv]
            obtain ⟨h1, h2, h3⟩ := verticesSet_ok_invalidates s4 (s4.vertexCache.getD []) hsnd
            rw [hfst] at h1 h2 h3
            exact ⟨rfl, h1, h2, h3⟩

def C1_w_s : PShape := (PShape.make [[0,0],[1,0],[1,1]] ["closed"]).1

def C1_w_s' : PShape :=
  { C1_w_s with
    vertices := [[5,5],[1,0],[1,1]],
    triVertices := none, triEdges := none, triFaces := none, edges := none }

def C1_w_body : PShape → BodyResult :=
  fun s => .normal { s with vertexCache := some [[0,0],[1,0]] }

/-- Claim C1 witness: the amended invalidation facts evaluated on a concrete
triangle shape, a concrete single-vertex update and a concrete edit session. -/
theorem C1_invalidation_witness :
    ((verticesSet C1_w_s [[0,0],[2,0],[2,2]]).1.triFaces = none
      ∧ (verticesSet C1_w_s [[0,0],[2,0],[2,2]]).1.edges = C1_w_s.edges)
  ∧ C1_w_s'.edges = none
  ∧ (edit true C1_w_body C1_w_s).1.edges = none :=
  have h := C1_invalidation C1_w_s C1_w_s' [[0,0],[2,0],[2,2]] 0 [5,5] true C1_w_body
  ⟨⟨(h.1 rfl).2.2.1, (h.1 rfl).2.2.2.1⟩, (h.2.1 rfl).1, (h.2.2 rfl).1⟩

/-! ## Claim C2 -/

def C2_s0 : PShape := (PShape.make [[0,0],[1,1]] ["closed"]).1

def C2_bodyRaise : PShape → BodyResult := fun s => .raised .generic s

/-- Claim C2 counterexample: with an edit-session body that raises, the
session-closing step never runs — the error propagates, the shape is left
with the edit flag permanently set, its store already cleared by `reset`,
and nothing committed. -/
theorem C2_counterexample :
    (edit true C2_bodyRaise C2_s0).2 = some .generic
  ∧ (edit true C2_bodyRaise C2_s0).1.inEditMode = true
  ∧ (edit true C2_bodyRaise C2_s0).1.vertices = [] :=
  ⟨rfl, rfl, rfl⟩

/-- Claim C2 (amended): the session-closing step runs only when the body
completes normally: a raising body makes `edit` return the body's final
state unchanged (no commit, edit flag untouched — the shape stays Open),
while a normally-completing body whose buffered commit succeeds yields the
committed state with the session Closed and no error. -/
theorem C2_scope_exit (s : PShape) (reset : Bool) (body : PShape → BodyResult)
    (hclosed : s.inEditMode = false) :
    (∀ e s4, body (editEntry reset s) = .raised e s4 →
        edit reset body s = (s4, some e))
  ∧ (∀ s4 s5, body (editEntry reset s) = .normal s4 →
        verticesSet s4 (s4.vertexCache.getD []) = (s5, none) →
        edit reset body s =
          ({ s5 with inEditMode := false, edges := none }, none)
        ∧ (edit reset body s).1.inEditMode = false) := by
  constructor
  · intro e s4 hb
    exact edit_raised reset body s e s4 hclosed hb
  · intro s4 s5 hb hv
    have h := edit_normal_ok reset body s s4 s5 hclosed hb hv
    rw [h]
    exact ⟨rfl, rfl⟩

/-- Claim C2 witness: the scope-exit behaviour evaluated on a concrete shape
with a concrete raising body: the result is exactly the body's state at the
raise, with the error propagated. -/
theorem C2_scope_exit_witness :
    edit true C2_bodyRaise C2_s0 = (editEntry true C2_s0, some .generic) :=
  (C2_scope_exit C2_s0 true C2_bodyRaise rfl).1 .generic (editEntry true C2_s0) rfl

/-! ## Claim C3 -/

/-- Claim C3 counterexample: at the default target dimension 2, a point of
length 1 raises the dimension error instead of being zero-padded to
`[1, 0]`, and a point of length 4 raises instead of being truncated. -/
theorem C3_counterexample :
    sanitize_vertex_list [[1]] 2 3 = .error .unexpectedVertexDimension
  ∧ sanitize_vertex_list [[1,2,3,4]] 2 3 = .error .unexpectedVertexDimension :=
  ⟨rfl, rfl⟩

theorem sanitize_ok_of_bounds (vs : List Point)
    (h : ∀ v ∈ vs, 2 ≤ v.length ∧ v.length ≤ 3) :
    sanitize_vertex_list vs 2 3 = .ok (vs.map (fun v => v.take 2)) := by
  induction vs with
  | nil => rfl
  | cons v rest ih =>
    have hv := h v (List.mem_cons_self v rest)
    have hc : ¬(v.length > max 2 3 || v.length < min 2 3) = true := by
      simp only [Bool.or_eq_true, decide_eq_true_eq, not_or]
      omega
    unfold sanitize_vertex_list
    rw [ih (fun w hw => h w (List.mem_cons_of_mem v hw))]
    simp [hc]
    omega

theorem sanitize_error_of_bad (vs : List Point)
    (h : ∃ v ∈ vs, v.length < 2 ∨ 3 < v.length) :
    sanitize_vertex_list vs 2 3 = .error .unexpectedVertexDimension := by
  induction vs with
  | nil => simp at h
  | cons v rest ih =>
    unfold sanitize_vertex_list
    by_cases hb : (v.length > max 2 3 || v.length < min 2 3) = true
    · rw [if_pos hb]
    · rw [if_neg hb]
      have hrest : ∃ w ∈ rest, w.length < 2 ∨ 3 < w.length := by
        rcases h with ⟨w, hw, hwl⟩
        rcases List.mem_cons.mp hw with h1 | h2
        · exfalso
          subst h1
          simp only [Bool.or_eq_true, decide_eq_true_eq, not_or] at hb
          omega
        · exact ⟨w, h2, hwl⟩
      rw [ih hrest]

/-- Claim C3 (amended): at the defaults (target dimension 2, source
dimension 3) a point of length 2 is copied as-is and a point of length 3 is
truncated to its first 2 components; every point of length below 2 or above
3 — in particular a 1-dimensional point — raises the dimension error, and
no zero-padding ever happens. -/
theorem C3_sanitize_rules (vs : List Point) :
    ((∀ v ∈ vs, 2 ≤ v.length ∧ v.length ≤ 3) →
        sanitize_vertex_list vs 2 3 = .ok (vs.map (fun v => v.take 2)))
  ∧ ((∃ v ∈ vs, v.length < 2 ∨ 3 < v.length) →
        sanitize_vertex_list vs 2 3 = .error .unexpectedVertexDimension) :=
  ⟨sanitize_ok_of_bounds vs, sanitize_error_of_bad vs⟩

/-- Claim C3 witness: a length-2 point passes unchanged next to a length-3
point that loses its third component. -/
theorem C3_sanitize_rules_witness :
    sanitize_vertex_list [[1,2],[3,4,5]] 2 3 = .ok [[1,2],[3,4]] :=
  (C3_sanitize_rules [[1,2],[3,4,5]]).1 (by decide)

/-! ## Claim C4 -/

def C4_poly1 : PShape := (PShape.make [[3,4]] ["closed"]).1

def C4_empty : PShape := (PShape.make [] ["closed"]).1

/-- Claim C4 counterexample: reading `edges` on a one-vertex polygon yields
the degenerate self-loop edge (0,0) — not an empty edge set — and on a
non-point shape with an empty store the read raises, because
`n, _ = self._vertices.shape` cannot unpack the 1-D empty array. -/
theorem C4_counterexample :
    C4_poly1.edgesVal = .ok [(0,0)]
  ∧ C4_empty.edgesGet = .error .shapeUnpack :=
  ⟨rfl, rfl⟩

/-- Claim C4 (amended): `edges` on a point shape returns the empty set for
any store; on a non-point shape with an uncached empty store it raises the
shape-unpack error; with exactly one vertex, a path shape produces an empty
edge set while a polygon shape produces the single degenerate edge (0,0). -/
theorem C4_degenerate (s : PShape) :
    ("point" ∈ s.attribs → s.edgesGet = .ok ([], s))
  ∧ ("point" ∉ s.attribs → s.edges = none → s.vertices = [] →
        s.edgesGet = .error .shapeUnpack)
  ∧ ("point" ∉ s.attribs → "path" ∈ s.attribs →
        s.edges = none → s.vertices.length = 1 → s.edgesVal = .ok [])
  ∧ ("point" ∉ s.attribs → "path" ∉ s.attribs →
        s.edges = none → s.vertices.length = 1 → s.edgesVal = .ok [(0,0)]) := by
  refine ⟨?_, ?_, ?_, ?_⟩
  · intro hp
    simp [PShape.edgesGet, hp]
  · intro hp he hv
    simp [PShape.edgesGet, hp, he, hv]
  · intro hp hq he hn
    obtain ⟨v, hv⟩ := List.length_eq_one.mp hn
    simp [PShape.edgesVal, PShape.edgesGet, hp, hq, he, hv, compute_outline_edges,
          Except.map]
  · intro hp hq he hn
    obtain ⟨v, hv⟩ := List.length_eq_one.mp hn
    simp [PShape.edgesVal, PShape.edgesGet, hp, hq, he, hv, compute_poly_edges,
          Except.map]
    decide

def C4_point : PShape := (PShape.make [[1,1]] ["point"]).1

def C4_path_empty : PShape := (PShape.make [] ["path"]).1

def C4_path1 : PShape := (PShape.make [[1,1]] ["path"]).1

/-- Claim C4 witness: the amended degenerate-case behaviour evaluated on
four concrete shapes. -/
theorem C4_degenerate_witness :
    C4_point.edgesGet = .ok ([], C4_point)
  ∧ C4_path_empty.edgesGet = .error .shapeUnpack
  ∧ C4_path1.edgesVal = .ok []
  ∧ C4_poly1.edgesVal = .ok [(0,0)] :=
  ⟨(C4_degenerate C4_point).1 (by decide),
   (C4_degenerate C4_path_empty).2.1 (by decide) rfl rfl,
   (C4_degenerate C4_path1).2.2.1 (by decide) (by decide) rfl rfl,
   (C4_degenerate C4_poly1).2.2.2 (by decide) (by decide) rfl rfl⟩

/-! ## Claim C5 -/

/-- Claim C5: for a triangulation-requiring shape, a successful `_draw_faces`
read leaves the face cache filled with the returned faces; when the cache was
stale the read makes exactly one triangulator call (the counter advances by
one), when it was filled the read returns without touching the state; and a
repeated read returns the identical cached result and state — so two reads
with no intervening mutation invoke the triangulator exactly once. -/
theorem C5_draw_faces_once (tri : Triangulator) (s : PShape) (f : List Face)
    (s1 : PShape) (hreq : s.triRequired = true)
    (hread : drawFaces tri s = .ok (f, s1)) :
    s1.triFaces = some f
  ∧ (s.triFaces = none → s1.triCalls = s.triCalls + 1)
  ∧ (∀ g, s.triFaces = some g → s1 = s)
  ∧ drawFaces tri s1 = .ok (f, s1) := by
  unfold drawFaces at hread
  rw [if_pos hreq] at hread
  cases hface : s.triFaces with
  | some g =>
    rw [hface] at hread
    simp only [Except.ok.injEq, Prod.mk.injEq] at hread
    obtain ⟨rfl, rfl⟩ := hread
    refine ⟨hface, ?_, ?_, ?_⟩
    · intro h
      exact Option.noConfusion h
    · intro g' _
      rfl
    · unfold drawFaces
      rw [if_pos hreq, hface]
  | none =>
    rw [hface] at hread
    unfold retriangulate at hread
    cases hg : s.edgesGet with
    | error e =>
      rw [hg] at hread
      cases hread
    | ok p =>
      cases p with
      | mk e se =>
        rw [hg] at hread
        simp only [Except.ok.injEq, Prod.mk.injEq] at hread
        obtain ⟨rfl, rfl⟩ := hread
        obtain ⟨_, hpre2, hpre3, _, _, _, _⟩ := edgesGet_ok_preserves s e se hg
        refine ⟨rfl, ?_, ?_, ?_⟩
        · intro _
          show se.triCalls + 1 = s.triCalls + 1
          rw [hpre3]
        · intro g hcontra
          exact Option.noConfusion hcontra
        · unfold drawFaces
          rw [if_pos (by show se.triRequired = true; rw [hpre2]; exact hreq)]
          rfl

def C5_tri : Triangulator := fun vs es =>
  { pts := vs, edges := some es, tris := some [(0,1,2),(0,2,3)] }

def C5_s0 : PShape := (PShape.make [[0,0],[10,0],[10,10],[0,10]] ["closed"]).1

def C5_s1 : PShape :=
  match drawFaces C5_tri C5_s0 with
  | .ok (_, s) => s
  | .error _ => C5_s0

/-- Claim C5 witness: on a concrete square with a concrete triangulation
service, the first `_draw_faces` read advances the call counter to exactly
one and the second read returns the identical cached result and state. -/
theorem C5_draw_faces_once_witness :
    C5_s1.triFaces = some [(0,1,2),(0,2,3)]
  ∧ C5_s1.triCalls = C5_s0.triCalls + 1
  ∧ drawFaces C5_tri C5_s1 = .ok ([(0,1,2),(0,2,3)], C5_s1) :=
  have h := C5_draw_faces_once C5_tri C5_s0 [(0,1,2),(0,2,3)] C5_s1 rfl rfl
  ⟨h.1, h.2.1 rfl, h.2.2.2⟩

/-! ## Claim C6 -/

def C6_open : PShape := editEntry false (PShape.make [[0,0],[1,1]] ["closed"]).1

/-- Claim C6 counterexample: on a shape whose edit session is Open (the
state right after `edit(reset=False)` reaches its `yield`), `update_vertex`
is applied to the vertex store instead of being rejected. -/
theorem C6_counterexample :
    C6_open.inEditMode = true
  ∧ update_vertex C6_open 0 [5,5] =
      .ok { C6_open with
            vertices := [[5,5],[1,1]],
            triVertices := none, triEdges := none, triFaces := none,
            edges := none } :=
  ⟨rfl, rfl⟩

/-- Claim C6 (amended): `update_vertex` makes no edit-session check at all:
for any shape — whatever the value of the edit flag — a 2-length point at a
valid index is accepted and written straight into the vertex store. -/
theorem C6_no_session_check (s : PShape) (idx : Nat) (v : Point)
    (hv : v.length = 2) (hidx : idx < s.vertices.length) :
    update_vertex s idx v =
      .ok { s with
            vertices := s.vertices.set idx v,
            triVertices := none, triEdges := none, triFaces := none,
            edges := none } := by
  unfold update_vertex
  rw [if_neg (by omega), if_pos hidx]

/-- Claim C6 witness: the in-session update evaluated on a concrete Open
shape. -/
theorem C6_no_session_check_witness :
    update_vertex C6_open 1 [9,9] =
      .ok { C6_open with
            vertices := [[0,0],[9,9]],
            triVertices := none, triEdges := none, triFaces := none,
            edges := none } :=
  (C6_no_session_check C6_open 1 [9,9] rfl (by decide)).trans rfl

/-! ## Claim C7 -/

/-- Claim C7: `update_vertex` with a 3-length point raises the dimension
error, and with a 2-length point at a valid index it replaces exactly the
indexed vertex: the new point reads back at that index and every other
index reads back unchanged. -/
theorem C7_update_vertex_frame (s : PShape) (idx : Nat) (p3 p2 : Point)
    (h3 : p3.length = 3) (h2 : p2.length = 2) (hidx : idx < s.vertices.length) :
    update_vertex s idx p3 = .error .wrongVertexDimension
  ∧ ∀ s', update_vertex s idx p2 = .ok s' →
      s'.vertices.get? idx = some p2
    ∧ ∀ j, j ≠ idx → s'.vertices.get? j = s.vertices.get? j := by
  constructor
  · unfold update_vertex
    rw [if_pos (by omega)]
  · intro s' h
    unfold update_vertex at h
    rw [if_neg (by omega), if_pos hidx] at h
    simp only [Except.ok.injEq] at h
    subst h
    constructor
    · show (s.vertices.set idx p2).get? idx = some p2
      exact List.get?_set_eq_of_lt p2 hidx
    · intro j hj
      show (s.vertices.set idx p2).get? j = s.vertices.get? j
      exact List.get?_set_ne p2 s.vertices (Ne.symm hj)

def C7_s : PShape := (PShape.make [[0,0],[1,1],[2,2]] ["closed"]).1

def C7_s1 : PShape :=
  match update_vertex C7_s 1 [7,8] with
  | .ok s => s
  | .error _ => C7_s

/-- Claim C7 witness: the dimension error and the single-index frame
property evaluated on a concrete three-vertex shape. -/
theorem C7_update_vertex_frame_witness :
    update_vertex C7_s 1 [9,9,9] = .error .wrongVertexDimension
  ∧ C7_s1.vertices.get? 1 = some [7,8]
  ∧ C7_s1.vertices.get? 0 = C7_s.vertices.get? 0
  ∧ C7_s1.vertices.get? 2 = C7_s.vertices.get? 2 :=
  have h := C7_update_vertex_frame C7_s 1 [9,9,9] [7,8] rfl rfl (by decide)
  have h2 := h.2 C7_s1 rfl
  ⟨h.1, h2.1, h2.2 0 (by decide), h2.2 2 (by decide)⟩

/-! ## Claim C8 -/

theorem kind_poly_iff (s : PShape) :
    s.kind = "poly" ↔ "point" ∉ s.attribs ∧ "path" ∉ s.attribs := by
  unfold PShape.kind
  by_cases hp : "point" ∈ s.attribs <;> by_cases hq : "path" ∈ s.attribs <;>
    simp [hp, hq]

/-- Claim C8: on a polygon-kind shape (neither point nor path) with an
uncached edge list and at least 3 vertices, reading `edges` yields exactly
the n pairs (i, (i+1) mod n) in index order — a single closed ring covering
every vertex index. -/
theorem C8_poly_edges (s : PShape) (hk : s.kind = "poly") (he : s.edges = none)
    (hn : 3 ≤ s.vertices.length) :
    s.edgesVal =
      .ok ((List.range s.vertices.length).map
            (fun i => (i, (i + 1) % s.vertices.length)))
  ∧ ((List.range s.vertices.length).map
        (fun i => (i, (i + 1) % s.vertices.length))).length
      = s.vertices.length := by
  obtain ⟨hp, hq⟩ := (kind_poly_iff s).mp hk
  refine ⟨?_, by simp⟩
  cases hv : s.vertices with
  | nil =>
    rw [hv] at hn
    simp at hn
  | cons a l =>
    simp [PShape.edgesVal, PShape.edgesGet, hp, hq, he, hv, compute_poly_edges,
          Except.map]

def C8_sq : PShape := (PShape.make [[0,0],[10,0],[10,10],[0,10]] ["closed"]).1

/-- Claim C8 witness: the end-to-end square example — attributes "closed",
vertices [(0,0),(10,0),(10,10),(0,10)]: the kind is polygon and `edges`
reads as [(0,1),(1,2),(2,3),(3,0)]. -/
theorem C8_poly_edges_witness :
    C8_sq.kind = "poly"
  ∧ C8_sq.edgesVal = .ok [(0,1),(1,2),(2,3),(3,0)] :=
  have h := C8_poly_edges C8_sq rfl rfl (by decide)
  ⟨rfl, h.1.trans rfl⟩

/-! ## Claim C9 -/

def C9_s : PShape := (PShape.make [[1,1]] ["closed"]).1

/-- Claim C9 counterexample: assigning the empty sequence — a valid sequence
whose points all (vacuously) have dimension 2 — does not complete: after
`_vertices` is replaced, the `np.hstack` build of `_outline_vertices` raises
on the 1-D empty array, so the setter errors instead of returning. -/
theorem C9_counterexample :
    (verticesSet C9_s []).2 = some Err.hstackNdim :=
  rfl

/-- Claim C9 (amended): for every nonempty sequence of exactly-2-dimensional
points, assignment through the vertices setter succeeds and reading
`vertices` back returns exactly the assigned sequence. -/
theorem C9_roundtrip (s : PShape) (V : List Point)
    (h2 : ∀ v ∈ V, v.length = 2) (hne : V ≠ []) :
    (verticesSet s V).2 = none ∧ (verticesSet s V).1.vertices = V := by
  unfold verticesSet
  rw [sanitize_len2 V h2]
  cases V with
  | nil => exact absurd rfl hne
  | cons v rest => exact ⟨rfl, rfl⟩

/-- Claim C9 witness: the round-trip evaluated on a concrete two-point
sequence. -/
theorem C9_roundtrip_witness :
    (verticesSet C9_s [[2,3],[4,5]]).2 = none
  ∧ (verticesSet C9_s [[2,3],[4,5]]).1.vertices = [[2,3],[4,5]] :=
  C9_roundtrip C9_s [[2,3],[4,5]] (by decide) (by decide)

/-! ## Claim C10 -/

/-- Claim C10: `_draw_outline_edges` is a pure cache read — it returns the
currently cached `_outline` (for open shapes) or `_edges` value without
computing or filling anything; whenever both edge caches are unset it
returns the absent marker, and in particular it returns `none` on every
freshly constructed shape, since the constructor's vertex-setter path never
fills the edge caches. -/
theorem C10_draw_outline_read (vs : List Point) (attribs : List String)
    (s : PShape) :
    draw_outline_edges s =
      (if s.attribs.contains "open" then s.outline else s.edges)
  ∧ (s.edges = none → s.outline = none → draw_outline_edges s = none)
  ∧ draw_outline_edges (PShape.make vs attribs).1 = none := by
  have hnone : ∀ t : PShape, t.edges = none → t.outline = none →
      draw_outline_edges t = none := by
    intro t h1 h2
    unfold draw_outline_edges
    rw [h1, h2]
    split <;> rfl
  refine ⟨rfl, hnone s, ?_⟩
  unfold PShape.make
  split
  · exact hnone _ ((verticesSet_preserves _ vs).1.trans rfl)
      ((verticesSet_preserves _ vs).2.1.trans rfl)
  · exact hnone _ rfl rfl

def C10_s : PShape := (PShape.make [[1,2],[3,4]] ["closed","open"]).1

/-- Claim C10 witness: the accessor returns the absent marker on a concrete
freshly constructed open shape whose edge caches were never filled. -/
theorem C10_draw_outline_read_witness :
    draw_outline_edges C10_s = none :=
  (C10_draw_outline_read [[1,2],[3,4]] ["closed","open"] C10_s).2.1 rfl rfl
